import Mathlib

/-!
Shallow embedding of the Event Simulator Loop of `src/App.tsx` together with
the data model of `src/types.ts`.

The program is a single-threaded, event-loop-driven React component.  We model
it as a transition system: `AppState` holds the component state
(`signalStatus`, `alerts`, `isLoading` from the three `useState` hooks, plus
the bookkeeping the event loop itself carries: the severities of in-flight
`generateAlert` calls and the due times of scheduled status-reset timeouts),
and `step` applies one event-loop callback.  Wall-clock readings
(`Date.now()`, `new Date().toLocaleTimeString()`) and the text returned by the
external completion service are inputs supplied by the environment on each
event, since the source treats them as ambient/opaque.
-/

namespace BroadcastMonitor

/-- `SignalStatus` from `src/types.ts`. -/
inductive SignalStatus
  | Good
  | Warning
  | Error
deriving DecidableEq, Repr

/-- `AlertMessage` from `src/types.ts`.  `id` is the `Date.now()` millisecond
reading taken when the entry is built; `timestamp` is the
`toLocaleTimeString()` string taken at the same moment. -/
structure AlertMessage where
  id : Nat
  timestamp : String
  type : SignalStatus
  message : String
deriving DecidableEq, Repr

/-- The fixed fallback text of the catch branch (`src/App.tsx` line 133). -/
def failureMessage : String := "Failed to get analysis from AI. Check API connection."

/-- The fixed webcam-failure text (`src/App.tsx` line 157). -/
def webcamMessage : String := "Webcam access denied or unavailable. Displaying placeholder background."

/-- The `possibleIssues` catalog (`src/App.tsx` lines 84-91). -/
def possibleIssues : List (SignalStatus × String) :=
  [ (SignalStatus.Warning, "Slight audio desynchronization detected on channel 3."),
    (SignalStatus.Error, "Critical signal loss on primary satellite uplink."),
    (SignalStatus.Warning, "Minor video artifacting (pixelation) observed during high-motion scene."),
    (SignalStatus.Error, "Complete audio dropout on main program feed."),
    (SignalStatus.Warning, "Loudness levels exceed EBU R128 standard by 2 LU."),
    (SignalStatus.Good, "System check complete. All parameters are nominal.") ]

/-- Component state.  `signalStatus`, `alerts`, `isLoading` are the three
`useState` hooks (`src/App.tsx` lines 79-81).  `pending` lists the severities
of `generateAlert` calls that have passed the `await` suspension point but not
yet resumed (in-flight completion requests).  `resets` lists the due times (in
`Date.now()` milliseconds) of the `setTimeout` status resets scheduled on line
121. -/
structure AppState where
  signalStatus : SignalStatus
  alerts : List AlertMessage
  isLoading : Bool
  pending : List SignalStatus
  resets : List Nat
deriving DecidableEq, Repr

/-- Initial state: `useState(SignalStatus.Good)`, `useState([])`,
`useState(false)`; nothing in flight, nothing scheduled. -/
def initState : AppState :=
  { signalStatus := SignalStatus.Good
    alerts := []
    isLoading := false
    pending := []
    resets := [] }

/-- The synchronous entry of `generateAlert` (`src/App.tsx` lines 93-97), up
to the `await`: `setIsLoading(true)`; if the severity is not Good, set the
global status to it; the request then enters flight (the `issue` string only
feeds the prompt sent to the opaque completion service, so it does not appear
in the observable state).  Note there is no check of `isLoading` here: the
function starts a request unconditionally. -/
def startGenerate (t : SignalStatus) (s : AppState) : AppState :=
  { s with
    isLoading := true
    signalStatus := if t ≠ SignalStatus.Good then t else s.signalStatus
    pending := s.pending ++ [t] }

/-- Resumption of `generateAlert` number `i` when the completion call succeeds
(`src/App.tsx` lines 108-122 and the `finally` on lines 136-138): append one
`AlertMessage` carrying the request severity, the current clock readings, and
the returned text; if the severity was Good, schedule a status reset due 1000
ms from now; clear the busy flag.  An index that matches no in-flight request
is a no-op. -/
def resolveOkStep (i : Nat) (text : String) (now : Nat) (ts : String) (s : AppState) : AppState :=
  match s.pending[i]? with
  | none => s
  | some t =>
    { s with
      alerts := s.alerts ++ [{ id := now, timestamp := ts, type := t, message := text }]
      resets := if t = SignalStatus.Good then s.resets ++ [now + 1000] else s.resets
      pending := s.pending.eraseIdx i
      isLoading := false }

/-- Resumption of `generateAlert` number `i` when the completion call throws
or rejects (the catch branch, `src/App.tsx` lines 124-135, plus the
`finally`): set the global status to Error, append one Error entry with the
fixed fallback text, clear the busy flag.  The exception is consumed here (the
step is a total function; nothing propagates) and no new request is started
(no retry). -/
def resolveErrStep (i : Nat) (now : Nat) (ts : String) (s : AppState) : AppState :=
  match s.pending[i]? with
  | none => s
  | some _ =>
    { s with
      signalStatus := SignalStatus.Error
      alerts := s.alerts ++ [{ id := now, timestamp := ts, type := SignalStatus.Error,
                               message := failureMessage }]
      pending := s.pending.eraseIdx i
      isLoading := false }

/-- Firing of reset timeout number `j` (`src/App.tsx` line 121:
`setTimeout(() => setSignalStatus(SignalStatus.Good), 1000)`). -/
def resetStep (j : Nat) (s : AppState) : AppState :=
  if j < s.resets.length then
    { s with signalStatus := SignalStatus.Good, resets := s.resets.eraseIdx j }
  else s

/-- Issue selection (`src/App.tsx` line 165):
`possibleIssues[Math.floor(Math.random() * possibleIssues.length)]`, with
`r` the `Math.random()` draw.  For `r` in `[0, 1)` the index is in range; the
`getD` default is never reached there (`Math.random` cannot produce anything
else). -/
def pickIssue (r : ℚ) : SignalStatus × String :=
  possibleIssues.getD (Rat.floor (r * (possibleIssues.length : ℚ))).toNat (SignalStatus.Good, "")

/-- The `setInterval` callback (`src/App.tsx` lines 163-167), parametric in
the `isLoading` value its closure captured.  The surrounding `useEffect` has
an empty dependency array, so it runs exactly once, after the first render;
the closure therefore captures that render's `isLoading` constant — `false` —
and never observes later `setIsLoading` updates.  `App` below wires
`capturedIsLoading := false` accordingly. -/
def intervalCallback (capturedIsLoading : Bool) (r : ℚ) (s : AppState) : AppState :=
  if capturedIsLoading then s
  else startGenerate (pickIssue r).1 s

/-- The bootstrap `setTimeout` callback (`src/App.tsx` lines 170-172): calls
`generateAlert("Monitoring initialized...", SignalStatus.Good)` with no guard
of any kind. -/
def bootstrapCallback (s : AppState) : AppState :=
  startGenerate SignalStatus.Good s

/-- The `getUserMedia` catch callback (`src/App.tsx` lines 151-159): appends
one Error entry with the fixed webcam text.  It touches no other state — in
particular `signalStatus` is left alone. -/
def webcamFailStep (now : Nat) (ts : String) (s : AppState) : AppState :=
  { s with alerts := s.alerts ++ [{ id := now, timestamp := ts, type := SignalStatus.Error,
                                    message := webcamMessage }] }

/-- One event-loop occurrence.  `timerFire` carries the `Math.random()` draw
used for issue selection; `resolveOk`/`resolveErr` carry the in-flight request
index, the service text (on success) and the clock readings at resumption;
`resetFire` fires a scheduled status reset; `webcamFail` is the camera
acquisition failure. -/
inductive Event
  | timerFire (r : ℚ)
  | bootstrapFire
  | resolveOk (i : Nat) (text : String) (now : Nat) (ts : String)
  | resolveErr (i : Nat) (now : Nat) (ts : String)
  | resetFire (j : Nat)
  | webcamFail (now : Nat) (ts : String)
deriving DecidableEq, Repr

/-- Dispatch one event.  The recurring-timer case wires the captured busy flag
to `false`, the value the interval closure holds in the real program (see
`intervalCallback`). -/
def step (e : Event) (s : AppState) : AppState :=
  match e with
  | .timerFire r => intervalCallback false r s
  | .bootstrapFire => bootstrapCallback s
  | .resolveOk i text now ts => resolveOkStep i text now ts s
  | .resolveErr i now ts => resolveErrStep i now ts s
  | .resetFire j => resetStep j s
  | .webcamFail now ts => webcamFailStep now ts s

/-- Run a sequence of event-loop occurrences from the initial state. -/
def run (es : List Event) : AppState :=
  es.foldl (fun s e => step e s) initState

/-- The `Date.now()` reading an event carries when it appends a log entry
(`id: Date.now()` on lines 113, 130 and 154 of `src/App.tsx`); `none` for
events that append nothing. -/
def eventNow? : Event → Option Nat
  | .resolveOk _ _ now _ => some now
  | .resolveErr _ now _ => some now
  | .webcamFail now _ => some now
  | _ => none

/-- Clock discipline of a trace: every appending event reads a `Date.now()`
value strictly larger than every id already in the log — that is, no two
appends fall in the same clock millisecond and the clock never steps
backwards between appends.  The source itself enforces nothing of the sort;
this is the environment assumption under which `Date.now()` ids are unique. -/
def clockAdvances : AppState → List Event → Bool
  | _, [] => true
  | s, e :: es =>
      (match eventNow? e with
       | some t => s.alerts.all fun a => decide (a.id < t)
       | none => true) && clockAdvances (step e s) es

/-- The delay handed to `setInterval` (`src/App.tsx` line 167):
`Math.random() * (15000 - 8000) + 8000`, with `r` the single `Math.random()`
draw made when `setInterval` is called. -/
def intervalDelay (r : ℚ) : ℚ := r * (15000 - 8000) + 8000

/-- Firing time of the n-th recurring-timer firing (0-based) under
`setInterval` semantics: the delay expression is evaluated once, so firing n
occurs at `(n+1) * d` where `d` uses only draw number 0 of the random stream
`rand`. -/
def codeFiringTime (rand : ℕ → ℚ) (n : ℕ) : ℚ := (n + 1) * intervalDelay (rand 0)

/-- Gap between consecutive recurring-timer firings as the code produces it. -/
def codeTimerGap (rand : ℕ → ℚ) (n : ℕ) : ℚ := codeFiringTime rand (n + 1) - codeFiringTime rand n

/-- Modelled from the spec (for comparison with `codeTimerGap`): a timer
re-armed on every firing with a fresh uniformly random delay would make gap n
a fresh draw, `intervalDelay (rand n)`. -/
def specTimerGap (rand : ℕ → ℚ) (n : ℕ) : ℚ := intervalDelay (rand n)

/-- Severity of issue selection at draw one half: `Math.floor(0.5 * 6) = 3`,
so `possibleIssues[3]`, the Error-severity audio-dropout issue, is picked. -/
theorem pickIssue_half : pickIssue (1/2) = (SignalStatus.Error, "Complete audio dropout on main program feed.") := by
  have h : (Rat.floor ((1/2 : ℚ) * (possibleIssues.length : ℚ))).toNat = 3 := by
    have h3 : Rat.floor ((1/2 : ℚ) * (possibleIssues.length : ℚ)) = 3 := by
      norm_num [Rat.floor, possibleIssues]
    rw [h3]
    rfl
  unfold pickIssue
  rw [h]
  rfl

/-- C3: for every firing whose completion call fails, the catch branch sets
the global status to Error, appends exactly one `AlertMessage` with severity
Error and exactly the text `"Failed to get analysis from AI. Check API
connection."`, removes the request from flight without starting a new one (no
retry), and clears the busy flag.  The step is a total function on states, so
the error is consumed at the call site and propagates no further. -/
theorem serviceFailure_handling (s : AppState) (i now : Nat) (ts : String) (t : SignalStatus)
    (h : s.pending[i]? = some t) :
    (step (Event.resolveErr i now ts) s).signalStatus = SignalStatus.Error ∧
    (step (Event.resolveErr i now ts) s).alerts =
      s.alerts ++ [{ id := now, timestamp := ts, type := SignalStatus.Error,
                     message := "Failed to get analysis from AI. Check API connection." }] ∧
    (step (Event.resolveErr i now ts) s).pending = s.pending.eraseIdx i ∧
    (step (Event.resolveErr i now ts) s).isLoading = false := by
  simp [step, resolveErrStep, h, failureMessage]

/-- Witness for `serviceFailure_handling`: one Warning request in flight,
whose completion rejects at clock 2000. -/
theorem serviceFailure_handling_witness :
    (step (Event.resolveErr 0 2000 "09:00:02") (startGenerate SignalStatus.Warning initState)).signalStatus = SignalStatus.Error ∧
    (step (Event.resolveErr 0 2000 "09:00:02") (startGenerate SignalStatus.Warning initState)).alerts =
      (startGenerate SignalStatus.Warning initState).alerts ++
        [{ id := 2000, timestamp := "09:00:02", type := SignalStatus.Error,
           message := "Failed to get analysis from AI. Check API connection." }] ∧
    (step (Event.resolveErr 0 2000 "09:00:02") (startGenerate SignalStatus.Warning initState)).pending =
      (startGenerate SignalStatus.Warning initState).pending.eraseIdx 0 ∧
    (step (Event.resolveErr 0 2000 "09:00:02") (startGenerate SignalStatus.Warning initState)).isLoading = false :=
  serviceFailure_handling (startGenerate SignalStatus.Warning initState) 0 2000 "09:00:02"
    SignalStatus.Warning (by decide)

/-- C4: for every firing whose completion call succeeds, exactly one new
`AlertMessage` is appended, carrying the selected issue's severity `t`, the
current clock readings (`Date.now()` id and `toLocaleTimeString()` string),
and the text the service returned. -/
theorem serviceSuccess_append (s : AppState) (i now : Nat) (text ts : String) (t : SignalStatus)
    (h : s.pending[i]? = some t) :
    (step (Event.resolveOk i text now ts) s).alerts =
      s.alerts ++ [{ id := now, timestamp := ts, type := t, message := text }] := by
  simp [step, resolveOkStep, h]

/-- Witness for `serviceSuccess_append`: an Error request in flight resolves
with the service text at clock 3000. -/
theorem serviceSuccess_append_witness :
    (step (Event.resolveOk 0 "Uplink failure on transponder 4" 3000 "09:00:03")
        (startGenerate SignalStatus.Error initState)).alerts =
      (startGenerate SignalStatus.Error initState).alerts ++
        [{ id := 3000, timestamp := "09:00:03", type := SignalStatus.Error,
           message := "Uplink failure on transponder 4" }] :=
  serviceSuccess_append (startGenerate SignalStatus.Error initState) 0 3000
    "Uplink failure on transponder 4" "09:00:03" SignalStatus.Error (by decide)

/-- C5: `generateAlert` sets the global status to the selected severity
synchronously on entry when that severity is not Good — before the completion
call resolves: at that point no alert has been appended yet and the request is
still in flight (last element of `pending`).  Both the timer and the bootstrap
call sites funnel through `startGenerate`; state changes only through `step`,
so the value persists until the next event. -/
theorem statusSet_on_entry (s : AppState) (t : SignalStatus) (h : t ≠ SignalStatus.Good) :
    (startGenerate t s).signalStatus = t ∧
    (startGenerate t s).alerts = s.alerts ∧
    (startGenerate t s).pending = s.pending ++ [t] := by
  simp [startGenerate, h]

/-- Witness for `statusSet_on_entry`: a Warning issue entering flight from the
initial state. -/
theorem statusSet_on_entry_witness :
    (startGenerate SignalStatus.Warning initState).signalStatus = SignalStatus.Warning ∧
    (startGenerate SignalStatus.Warning initState).alerts = initState.alerts ∧
    (startGenerate SignalStatus.Warning initState).pending = initState.pending ++ [SignalStatus.Warning] :=
  statusSet_on_entry initState SignalStatus.Warning (by decide)

/-- C6: when a Good-severity request completes successfully at clock `now`, a
status reset is scheduled due at exactly `now + 1000` milliseconds; and
whenever a scheduled reset fires, the global status becomes Good at that
moment. -/
theorem goodReset_schedule (s : AppState) (i now : Nat) (text ts : String)
    (h : s.pending[i]? = some SignalStatus.Good) :
    (step (Event.resolveOk i text now ts) s).resets = s.resets ++ [now + 1000] ∧
    ∀ (s2 : AppState) (j : Nat), j < s2.resets.length →
      (step (Event.resetFire j) s2).signalStatus = SignalStatus.Good := by
  refine ⟨by simp [step, resolveOkStep, h], ?_⟩
  intro s2 j hj
  simp [step, resetStep, hj]

/-- Witness for `goodReset_schedule`: the bootstrap Good request resolves at
clock 4000, scheduling a reset due at 5000. -/
theorem goodReset_schedule_witness :
    (step (Event.resolveOk 0 "All feeds nominal." 4000 "09:00:04") (bootstrapCallback initState)).resets =
      (bootstrapCallback initState).resets ++ [4000 + 1000] ∧
    ∀ (s2 : AppState) (j : Nat), j < s2.resets.length →
      (step (Event.resetFire j) s2).signalStatus = SignalStatus.Good :=
  goodReset_schedule (bootstrapCallback initState) 0 4000 "All feeds nominal." "09:00:04" (by decide)

/-- C7: the alert log is append-only: every event either leaves the log
unchanged or extends it with exactly one new entry at the end; entries already
present are never removed or mutated. -/
theorem alerts_append_only (e : Event) (s : AppState) :
    (step e s).alerts = s.alerts ∨ ∃ a, (step e s).alerts = s.alerts ++ [a] := by
  cases e with
  | timerFire r => left; simp [step, intervalCallback, startGenerate]
  | bootstrapFire => left; simp [step, bootstrapCallback, startGenerate]
  | resolveOk i text now ts =>
      cases h : s.pending[i]? with
      | none => left; simp [step, resolveOkStep, h]
      | some t =>
          right
          exact ⟨{ id := now, timestamp := ts, type := t, message := text },
                 by simp [step, resolveOkStep, h]⟩
  | resolveErr i now ts =>
      cases h : s.pending[i]? with
      | none => left; simp [step, resolveErrStep, h]
      | some t =>
          right
          exact ⟨{ id := now, timestamp := ts, type := SignalStatus.Error,
                   message := failureMessage },
                 by simp [step, resolveErrStep, h]⟩
  | resetFire j => left; by_cases hj : j < s.resets.length <;> simp [step, resetStep, hj]
  | webcamFail now ts =>
      right
      exact ⟨{ id := now, timestamp := ts, type := SignalStatus.Error,
               message := webcamMessage },
             by simp [step, webcamFailStep]⟩

/-- C9: camera-acquisition failure appends exactly one Error entry with the
fixed webcam text and touches nothing else: the global status, the busy flag,
the in-flight requests and the scheduled resets are all left unchanged. -/
theorem webcamFailure_effect (now : Nat) (ts : String) (s : AppState) :
    (step (Event.webcamFail now ts) s).alerts =
      s.alerts ++ [{ id := now, timestamp := ts, type := SignalStatus.Error,
                     message := "Webcam access denied or unavailable. Displaying placeholder background." }] ∧
    (step (Event.webcamFail now ts) s).signalStatus = s.signalStatus ∧
    (step (Event.webcamFail now ts) s).isLoading = s.isLoading ∧
    (step (Event.webcamFail now ts) s).pending = s.pending ∧
    (step (Event.webcamFail now ts) s).resets = s.resets := by
  simp [step, webcamFailStep, webcamMessage]

/-- C10: the bootstrap firing invokes `generateAlert` unconditionally — it
starts a Good request and raises the busy flag whatever the current state, in
particular even when a request is already in flight — and `generateAlert`
itself checks nothing on entry: `startGenerate` always adds its request.  The
only busy-flag check in the program sits in the interval callback, which skips
exactly when the flag value its closure captured is true. -/
theorem guard_only_at_timer_call_site :
    (∀ s : AppState, (step Event.bootstrapFire s).pending = s.pending ++ [SignalStatus.Good] ∧
      (step Event.bootstrapFire s).isLoading = true) ∧
    (∀ (t : SignalStatus) (s : AppState), (startGenerate t s).pending = s.pending ++ [t]) ∧
    (∀ (r : ℚ) (s : AppState), intervalCallback true r s = s) := by
  refine ⟨fun s => ⟨?_, ?_⟩, fun t s => ?_, fun r s => ?_⟩ <;>
    simp [step, bootstrapCallback, startGenerate, intervalCallback]

/-- C1 at its failing input: the bootstrap firing puts a request in flight
and raises the busy flag, yet when the recurring timer then fires (draw 0.5)
the firing is NOT skipped — a second request starts and two are in flight at
once.  The guard `if (isLoading) return` never fires because the interval
closure, created by the once-run `useEffect`, captured the first render's
`isLoading = false` and never sees later updates. -/
theorem stale_guard_overlapping_requests :
    (run [Event.bootstrapFire]).isLoading = true ∧
    (run [Event.bootstrapFire, Event.timerFire (1/2)]).pending.length = 2 :=
  ⟨rfl, rfl⟩

/-- C2 counterexample: with the random stream drawing 0 first and 1/2 on
every later draw, the code's timer gap is 8000 ms on every firing (the
`setInterval` delay expression is evaluated once), so consecutive gaps are
equal — whereas a timer re-armed per firing with a fresh draw (the spec's
words, `specTimerGap`) would make the second gap 11500 ms. -/
theorem timer_not_rearmed_counterexample :
    codeTimerGap (fun n => if n = 0 then 0 else 1/2) 0
      = codeTimerGap (fun n => if n = 0 then 0 else 1/2) 1 ∧
    codeTimerGap (fun n => if n = 0 then 0 else 1/2) 1
      ≠ specTimerGap (fun n => if n = 0 then 0 else 1/2) 1 := by
  constructor
  · norm_num [codeTimerGap, codeFiringTime, intervalDelay]
  · norm_num [codeTimerGap, codeFiringTime, specTimerGap, intervalDelay]

/-- C2 amended: the recurring timer is a fixed-period timer whose period is a
single uniformly random draw made when `setInterval` is called: every gap
between consecutive firings equals `intervalDelay (rand 0)`, and for any draw
`r` in `[0, 1)` that period lies in `[8000, 15000)` ms. -/
theorem timer_fixed_random_period (rand : ℕ → ℚ) (n : ℕ) (r : ℚ)
    (h0 : 0 ≤ r) (h1 : r < 1) :
    codeTimerGap rand n = intervalDelay (rand 0) ∧
    8000 ≤ intervalDelay r ∧ intervalDelay r < 15000 := by
  refine ⟨?_, ?_, ?_⟩
  · unfold codeTimerGap codeFiringTime
    push_cast
    ring
  · unfold intervalDelay
    nlinarith
  · unfold intervalDelay
    nlinarith

/-- Witness for `timer_fixed_random_period` at the constant stream 1/2. -/
theorem timer_fixed_random_period_witness :
    codeTimerGap (fun _ => (1:ℚ)/2) 0 = intervalDelay ((fun _ => (1:ℚ)/2) 0) ∧
    8000 ≤ intervalDelay ((1:ℚ)/2) ∧ intervalDelay ((1:ℚ)/2) < 15000 :=
  timer_fixed_random_period (fun _ => (1:ℚ)/2) 0 ((1:ℚ)/2)
    (le_of_lt one_half_pos) one_half_lt_one

/-- C8 counterexample: a reachable trace in which two manifestly different
log entries (different severities and messages) are appended in the same
clock millisecond 9000 and therefore carry EQUAL `Date.now()` ids — so ids
are neither unique nor strictly monotonic.  (The overlap of two in-flight
requests used here is itself reachable, because the interval callback's
stale captured busy flag never skips a firing.) -/
theorem duplicate_id_counterexample :
    ((run [Event.bootstrapFire, Event.timerFire (1/2),
           Event.resolveOk 0 "All feeds stable." 9000 "09:00:09",
           Event.resolveErr 0 9000 "09:00:09"]).alerts.map AlertMessage.id = [9000, 9000]) ∧
    ((run [Event.bootstrapFire, Event.timerFire (1/2),
           Event.resolveOk 0 "All feeds stable." 9000 "09:00:09",
           Event.resolveErr 0 9000 "09:00:09"]).alerts.map AlertMessage.message =
        ["All feeds stable.", failureMessage]) ∧
    ¬ List.Pairwise (fun a b => a < b)
        ((run [Event.bootstrapFire, Event.timerFire (1/2),
               Event.resolveOk 0 "All feeds stable." 9000 "09:00:09",
               Event.resolveErr 0 9000 "09:00:09"]).alerts.map AlertMessage.id) := by
  refine ⟨rfl, rfl, ?_⟩
  intro hp
  rw [show ((run [Event.bootstrapFire, Event.timerFire (1/2),
                  Event.resolveOk 0 "All feeds stable." 9000 "09:00:09",
                  Event.resolveErr 0 9000 "09:00:09"]).alerts.map AlertMessage.id)
        = [9000, 9000] from rfl] at hp
  exact absurd ((List.pairwise_cons.mp hp).1 9000 (by simp)) (by simp)

/-- Appending one entry whose id is larger than every id present preserves
strictly increasing ids. -/
theorem append_id_mono (l : List AlertMessage) (a : AlertMessage)
    (hp : List.Pairwise (fun x y => x < y) (l.map AlertMessage.id))
    (ha : (l.all fun x => decide (x.id < a.id)) = true) :
    List.Pairwise (fun x y => x < y) ((l ++ [a]).map AlertMessage.id) := by
  rw [List.map_append]
  refine List.pairwise_append.mpr ⟨hp, List.pairwise_singleton _ _, ?_⟩
  intro x hx y hy
  rcases List.mem_map.mp hx with ⟨b, hb, rfl⟩
  have hy1 : y = a.id := by simpa using hy
  subst hy1
  exact of_decide_eq_true (List.all_eq_true.mp ha b hb)

/-- One step under the clock discipline preserves strictly increasing ids. -/
theorem step_id_mono (e : Event) (s : AppState)
    (hp : List.Pairwise (fun x y => x < y) (s.alerts.map AlertMessage.id))
    (ht : (match eventNow? e with
           | some t => s.alerts.all fun a => decide (a.id < t)
           | none => true) = true) :
    List.Pairwise (fun x y => x < y) ((step e s).alerts.map AlertMessage.id) := by
  cases e with
  | timerFire r => simpa [step, intervalCallback, startGenerate] using hp
  | bootstrapFire => simpa [step, bootstrapCallback, startGenerate] using hp
  | resolveOk i text now ts =>
      cases h : s.pending[i]? with
      | none => simpa [step, resolveOkStep, h] using hp
      | some t =>
          have : (step (Event.resolveOk i text now ts) s).alerts =
              s.alerts ++ [{ id := now, timestamp := ts, type := t, message := text }] := by
            simp [step, resolveOkStep, h]
          rw [this]
          exact append_id_mono _ _ hp (by simpa [eventNow?] using ht)
  | resolveErr i now ts =>
      cases h : s.pending[i]? with
      | none => simpa [step, resolveErrStep, h] using hp
      | some t =>
          have : (step (Event.resolveErr i now ts) s).alerts =
              s.alerts ++ [{ id := now, timestamp := ts, type := SignalStatus.Error,
                             message := failureMessage }] := by
            simp [step, resolveErrStep, h]
          rw [this]
          exact append_id_mono _ _ hp (by simpa [eventNow?] using ht)
  | resetFire j =>
      by_cases hj : j < s.resets.length <;> simpa [step, resetStep, hj] using hp
  | webcamFail now ts =>
      have : (step (Event.webcamFail now ts) s).alerts =
          s.alerts ++ [{ id := now, timestamp := ts, type := SignalStatus.Error,
                         message := webcamMessage }] := by
        simp [step, webcamFailStep]
      rw [this]
      exact append_id_mono _ _ hp (by simpa [eventNow?] using ht)

/-- Ids stay strictly increasing along any suffix of a run, under the clock
discipline. -/
theorem run_id_mono_aux (es : List Event) : ∀ (s : AppState),
    List.Pairwise (fun x y => x < y) (s.alerts.map AlertMessage.id) →
    clockAdvances s es = true →
    List.Pairwise (fun x y => x < y)
      ((es.foldl (fun s e => step e s) s).alerts.map AlertMessage.id) := by
  induction es with
  | nil => intro s hp _; simpa using hp
  | cons e es ih =>
      intro s hp h
      simp only [clockAdvances, Bool.and_eq_true] at h
      simpa using ih (step e s) (step_id_mono e s hp h.1) h.2

/-- C8 amended: the ids of the log entries are the `Date.now()` millisecond
readings at append time; they are strictly increasing along the log — hence
pairwise distinct — provided the clock discipline holds: every append occurs
at a strictly later clock millisecond than all earlier appends.  (Without
that environment assumption the property fails: two appends in the same
millisecond receive equal ids.) -/
theorem ids_strictly_monotonic (es : List Event)
    (h : clockAdvances initState es = true) :
    List.Pairwise (fun x y => x < y) ((run es).alerts.map AlertMessage.id) := by
  have := run_id_mono_aux es initState (by simp [initState]) h
  simpa [run] using this

/-- Witness for `ids_strictly_monotonic`: webcam failure at clock 5, then the
bootstrap request resolving at clock 10. -/
theorem ids_strictly_monotonic_witness :
    clockAdvances initState
        [Event.webcamFail 5 "09:00:00", Event.bootstrapFire,
         Event.resolveOk 0 "All nominal." 10 "09:00:01"] = true ∧
    List.Pairwise (fun x y => x < y)
      ((run [Event.webcamFail 5 "09:00:00", Event.bootstrapFire,
             Event.resolveOk 0 "All nominal." 10 "09:00:01"]).alerts.map AlertMessage.id) :=
  ⟨by decide,
   ids_strictly_monotonic
     [Event.webcamFail 5 "09:00:00", Event.bootstrapFire,
      Event.resolveOk 0 "All nominal." 10 "09:00:01"] (by decide)⟩

end BroadcastMonitor
